import Mathlib

/-!
Shallow embedding of the request-routing, versioning and authentication
gating logic of `src/ga4gh/frontend.py`, together with proofs about the
behaviour of the embedded code.

Conventions used throughout:
* Python strings are Lean `String`s; Python `None` is `Option.none`.
* Python dictionaries that the code indexes by string keys are modelled
  as association lists `List (String × α)` with first-match lookup,
  which is how CPython dict lookup behaves observationally here.
* Python exceptions are modelled by explicit outcome constructors; an
  exception that is not one of the server's typed exceptions is
  represented by a dedicated constructor, because `handleException`
  (frontend.py lines 332-344) coerces any non `BaseServerException`
  value into a generic server error.
* Calls into third-party libraries (`oic`, `flask.session` transport,
  randomness) are modelled as explicit input parameters holding the
  value the call returns.
-/

set_option autoImplicit false

namespace Frontend

/-! ## Version gate (frontend.py lines 67-109) -/

/-- The result of `Version.parseString`: the tuple
`self.version = (major, minor, revision)` built by `Version.__init__`.
The components stay strings: the Python code never converts them to
integers. -/
abbrev VersionTuple := String × String × String

/-- The typed failure of version parsing.  `Version(*versions)` with a
component list whose length is not 3 raises a Python `TypeError`
(wrong number of constructor arguments); this is the only failure mode
of `Version.parseString`. -/
inductive ParseError where
  | typeError
  deriving Repr, DecidableEq

/-- Python `versionString.strip('vV')`: remove every leading and every
trailing character that is `v` or `V`. -/
def stripV (s : String) : String :=
  String.mk (((s.data.dropWhile fun c => c == 'v' || c == 'V').reverse.dropWhile
    fun c => c == 'v' || c == 'V').reverse)

/-- Helper for `pySplitDot`: accumulate the current component while
walking the character list. -/
def splitDotAux : List Char → List Char → List String
  | [], acc => [String.mk acc]
  | c :: rest, acc =>
      if c = '.' then String.mk acc :: splitDotAux rest []
      else splitDotAux rest (acc ++ [c])

/-- Python `s.split('.')`: cut at every dot, keeping empty components,
with `""` splitting to `[""]`. -/
def pySplitDot (s : String) : List String :=
  splitDotAux s.data []

/-- `Version.parseString` (frontend.py lines 80-83): strip the version
marker, split on `'.'`, and build the component tuple.  A component
list of any length other than three makes `Version(*versions)` raise a
`TypeError`. -/
def parseString (versionString : String) : Except ParseError VersionTuple :=
  match pySplitDot (stripV versionString) with
  | [major, minor, revision] => .ok (major, minor, revision)
  | _ => .error .typeError

/-- The sentinel `Version.currentString`. -/
def currentString : String := "current"

/-- `Version.isCurrentVersion` (frontend.py lines 73-78).  The server's
configured protocol version `protocol.version` is passed explicitly as
`pv`.  The requested string is parsed before the protocol version,
matching Python's left-to-right evaluation; a `TypeError` from either
parse propagates to the caller. -/
def isCurrentVersion (pv versionString : String) : Except ParseError Bool :=
  if versionString = currentString then .ok true
  else do
    let v ← parseString versionString
    let vpv ← parseString pv
    .ok (v = vpv)

/-- The outcome of a GET on `/` or `/<version>`.  `indexPage` is the
`flask.render_template('index.html', ...)` body served with HTTP 200;
`redirect target` is a `flask.redirect(target)` response (HTTP 3xx with
a Location header), which in frontend.py is produced only inside
`startLogin` (line 371) and `oidcCallback` (line 765), never on these
two routes; `pathNotFound` is a raised `PathNotFoundException`. -/
inductive HttpOutcome where
  | indexPage
  | redirect (target : String)
  | pathNotFound
  deriving Repr, DecidableEq

/-- The `index` view on `/` (frontend.py lines 489-491): it renders the
index template directly. -/
def index : HttpOutcome := .indexPage

/-- `indexRedirect`, the view on `/<version>` (frontend.py lines
494-503): a `TypeError` from `isCurrentVersion` is caught and turned
into `PathNotFoundException`; for a current version the code executes
`return index()` (line 501), serving the index page body itself rather
than building a redirect response; anything else raises
`PathNotFoundException`. -/
def indexRedirect (pv versionString : String) : HttpOutcome :=
  match isCurrentVersion pv versionString with
  | .error .typeError => .pathNotFound
  | .ok true => index
  | .ok false => .pathNotFound

/-! ## Shared server state and the auth gate (frontend.py lines 374-413) -/

/-- The result `atr` of `app.oidcClient.do_access_token_request`
(frontend.py lines 735-744).  The embedded code inspects only whether
the returned object is a `message.AccessTokenResponse` and the value
`atr.to_dict()['id_token']['nonce']`; the latter is `none` when the
dictionary path is missing, in which case the subscript raises a
`KeyError`. -/
structure AccessTokenResult where
  isAccessTokenResponse : Bool
  idTokenNonce : Option String
  deriving Repr, DecidableEq

/-- One value of `app.tokenMap`: the record stored by `oidcCallback`
(frontend.py lines 752-756), `{'code', 'state', 'accessTokenResponse',
'userId', 'userInfo'}`.  The user-info payload is kept abstract as a
string. -/
structure TokenRecord where
  code : String
  state : String
  accessTokenResponse : AccessTokenResult
  userId : String
  userInfo : String
  deriving Repr, DecidableEq

/-- First-match association-list lookup, the observational behaviour of
CPython `dict.get` on the string-keyed dictionaries used here. -/
def assocFind {α : Type} (m : List (String × α)) (k : String) : Option α :=
  match m with
  | [] => none
  | (k', v) :: rest => if k' = k then some v else assocFind rest k

/-- CPython `dict` assignment `m[k] = v`: replace the value in place
when the key exists, append a new entry otherwise. -/
def dictInsert {α : Type} (m : List (String × α)) (k : String) (v : α) :
    List (String × α) :=
  match assocFind m k with
  | some _ => m.map (fun p => if p.1 = k then (k, v) else p)
  | none => m ++ [(k, v)]

/-- The app-wide mutable state touched by the gated-request logic:
`app.tokenMap` and `app.permissions` (frontend.py lines 241, 248, 285). -/
structure ServerState where
  tokenMap : List (String × TokenRecord)
  permissions : List (String × List String)
  deriving Repr, DecidableEq

/-- The caller's `flask.session` contents used by the embedded code:
the `'key'`, `'userId'`, `'state'` and `'nonce'` entries, each absent
(`none`) until assigned. -/
structure SessionData where
  key : Option String
  userId : Option String
  state : Option String
  nonce : Option String
  deriving Repr, DecidableEq

/-- The parts of the incoming request read by `checkAuthentication`:
`flask.request.args.get('key')` (with `some ""` for a present but empty
parameter), the `datasetIds` field of the JSON body when the body is a
JSON object carrying one, and whether the matched endpoint is
`oidcCallback`. -/
structure Request where
  argsKey : Option String
  jsonDatasetIds : Option (List String)
  endpointIsOidcCallback : Bool
  deriving Repr, DecidableEq

/-- Python `a or b` specialised to optional strings: `None` and the
empty string are falsy, so they defer to the right operand. -/
def pyOr (a b : Option String) : Option String :=
  match a with
  | some s => if s = "" then b else some s
  | none => b

/-- Lookup `app.tokenMap.get(key)` where `key` may be `None`; `None` is
never a key of the map. -/
def lookupKey (m : List (String × TokenRecord)) : Option String → Option TokenRecord
  | none => none
  | some k => assocFind m k

/-- Python `validIds is []` (frontend.py line 411): object-identity
comparison between the freshly built comprehension result and a freshly
allocated empty list literal.  Two distinct fresh objects are never
identical, so the test is `False` for every value of `validIds`. -/
def pyIsEmptyListLiteral (_validIds : List String) : Bool := false

/-- The outcome of the `before_request` hook `checkAuthentication`:
fall through to the route handler, raise
`NotAuthenticatedException` (optionally carrying the offending user id,
frontend.py line 407), or return the `startLogin()` redirect. -/
inductive AuthOutcome where
  | pass
  | notAuthenticated (userId : Option String)
  | loginRedirect
  deriving Repr, DecidableEq

/-- `startLogin` (frontend.py lines 352-371): store two fresh random
strings in the session under `'state'` and `'nonce'` and answer with
the redirect to the provider's authorization endpoint.  The random
strings produced by `oic.oauth2.rndstr` are passed in as `newState`
and `newNonce`. -/
def startLogin (sess : SessionData) (newState newNonce : String) :
    AuthOutcome × SessionData :=
  (.loginRedirect, { sess with state := some newState, nonce := some newNonce })

/-- The dataset-permission half of `checkAuthentication` (frontend.py
lines 403-412), entered with the token-map record resolved for the
caller's key.  A body without `datasetIds` passes; an identity missing
from `app.permissions` raises `NotAuthenticatedException(userId)`; the
comprehension `validIds` keeps the requested ids that are permitted,
and the `validIds is []` test never fires (`pyIsEmptyListLiteral`). -/
def datasetCheck (srv : ServerState) (record : TokenRecord)
    (jsonDatasetIds : Option (List String)) : AuthOutcome :=
  match jsonDatasetIds with
  | none => .pass
  | some datasetIds =>
    match assocFind srv.permissions record.userId with
    | none => .notAuthenticated (some record.userId)
    | some userDatasets =>
      let validIds := datasetIds.filter (fun dataset => dataset ∈ userDatasets)
      if pyIsEmptyListLiteral validIds then .notAuthenticated none else .pass

/-- `checkAuthentication` (frontend.py lines 374-413), threading the
shared server state and the caller's session through unchanged except
where the source assigns to them.  `oidcConfigured` is
`app.oidcClient is not None`; `newState` and `newNonce` feed
`startLogin` when it is reached. -/
def checkAuthentication (oidcConfigured : Bool) (srv : ServerState)
    (sess : SessionData) (req : Request) (newState newNonce : String) :
    AuthOutcome × ServerState × SessionData :=
  if oidcConfigured = false then (.pass, srv, sess)
  else if req.endpointIsOidcCallback then (.pass, srv, sess)
  else
    match lookupKey srv.tokenMap (pyOr sess.key req.argsKey) with
    | none =>
      if req.argsKey.isSome then (.notAuthenticated none, srv, sess)
      else
        let (out, sess') := startLogin sess newState newNonce
        (out, srv, sess')
    | some record => (datasetCheck srv record req.jsonDatasetIds, srv, sess)

/-- The dataset identifiers that reach the backend search for a gated
request: when the gate passes, the route handler feeds the original
request body to the backend unchanged (`handleHttpPost`, frontend.py
lines 295-303, uses `request.get_data()`); when the gate raises or
redirects, the backend is never invoked. -/
def gatedSearchDatasets (oidcConfigured : Bool) (srv : ServerState)
    (sess : SessionData) (req : Request) (newState newNonce : String) :
    Option (List String) :=
  match (checkAuthentication oidcConfigured srv sess req newState newNonce).1 with
  | .pass => req.jsonDatasetIds
  | _ => none

/-! ## The OIDC callback (frontend.py lines 702-766) -/

/-- The object `aresp` returned by `app.oidcClient.parse_response`
on the callback's query parameters (frontend.py lines 720-722): either
a `message.AuthorizationResponse` or some other message object (for
example an authorization error response).  The embedded code reads the
`'state'` and `'code'` entries by subscript; `none` models an absent
entry, whose subscript raises a `KeyError`. -/
structure ParsedAuthResponse where
  isAuthorizationResponse : Bool
  state : Option String
  code : Option String
  deriving Repr, DecidableEq

/-- The result of `do_user_info_request` (frontend.py line 747): the
profile payload, whose `'email'` entry the code subscripts. -/
structure UserInfoResult where
  email : Option String
  payload : String
  deriving Repr, DecidableEq

/-- The external-call results and fresh randomness consumed by one run
of `oidcCallback`: the parsed authorization response, the access-token
exchange result, the user-info payload, and the fresh token produced by
`oic.oauth2.rndstr(SECRET_KEY_LENGTH)` at frontend.py line 748. -/
structure CallbackInput where
  aresp : ParsedAuthResponse
  atr : AccessTokenResult
  userInfo : UserInfoResult
  freshKey : String
  deriving Repr, DecidableEq

/-- The outcome of `oidcCallback`.  `uncaughtError` is any exception
other than the server's typed exceptions escaping the handler (here a
`KeyError` from a missing dictionary entry), which `handleException`
then coerces into a generic server error with HTTP status 500. -/
inductive CallbackOutcome where
  | notImplemented
  | notAuthenticated
  | uncaughtError
  | redirectToIndex
  deriving Repr, DecidableEq

/-- `oidcCallback` (frontend.py lines 702-766).  The source order is
kept: `aresp['state']` is subscripted (line 724) before the
`isinstance`/state-match test (lines 725-727); `aresp['code']` is read
while building the token-request arguments (line 730); the access-token
response type is checked (lines 740-741), then
`atrDict['id_token']['nonce']` is compared against the session nonce
(lines 743-745); `userInfo['email']` becomes the user id (line 750);
finally a fresh key is stored in the session and the record is inserted
into `app.tokenMap` (lines 748-756) before the redirect to the index
page. -/
def oidcCallback (oidcConfigured : Bool) (srv : ServerState)
    (sess : SessionData) (inp : CallbackInput) :
    CallbackOutcome × ServerState × SessionData :=
  if oidcConfigured = false then (.notImplemented, srv, sess)
  else
    match inp.aresp.state with
    | none => (.uncaughtError, srv, sess)
    | some respState =>
      if ¬inp.aresp.isAuthorizationResponse ∨ sess.state ≠ some respState then
        (.notAuthenticated, srv, sess)
      else
        match inp.aresp.code with
        | none => (.uncaughtError, srv, sess)
        | some code =>
          if ¬inp.atr.isAccessTokenResponse then (.notAuthenticated, srv, sess)
          else
            match inp.atr.idTokenNonce with
            | none => (.uncaughtError, srv, sess)
            | some nonce =>
              if sess.nonce ≠ some nonce then (.notAuthenticated, srv, sess)
              else
                match inp.userInfo.email with
                | none => (.uncaughtError, srv, sess)
                | some userId =>
                  let record : TokenRecord :=
                    { code := code, state := respState,
                      accessTokenResponse := inp.atr, userId := userId,
                      userInfo := inp.userInfo.payload }
                  (.redirectToIndex,
                   { srv with
                      tokenMap := dictInsert srv.tokenMap inp.freshKey record },
                   { sess with key := some inp.freshKey, userId := some userId })

/-! ## Route resolution (frontend.py lines 41-64, 456-487, 489-701) -/

/-- One segment of a registered URL rule: a literal, a plain
placeholder (the default werkzeug converter), or a placeholder using
the `no` converter of `NoConverter` (frontend.py lines 41-64), which
raises a `ValidationError` — making the rule not match — whenever the
captured value is one of the excluded literals. -/
inductive Seg where
  | lit (s : String)
  | param (name : String)
  | exceptOf (name : String) (excluded : List String)
  deriving Repr, DecidableEq

/-- A registered rule: its path pattern, allowed HTTP methods, and the
name of the view function. -/
structure Route where
  pattern : List Seg
  methods : List String
  handler : String
  deriving Repr, DecidableEq

/-- Match a pattern against the path's segments, producing the captured
path parameters; `exceptOf` refuses its excluded literals. -/
def matchSegs : List Seg → List String → Option (List (String × String))
  | [], [] => some []
  | .lit s :: rest, t :: ts => if s = t then matchSegs rest ts else none
  | .param n :: rest, t :: ts =>
      (matchSegs rest ts).map (fun ps => (n, t) :: ps)
  | .exceptOf n excluded :: rest, t :: ts =>
      if t ∈ excluded then none
      else (matchSegs rest ts).map (fun ps => (n, t) :: ps)
  | _, _ => none

/-- The result of resolving (method, path) against the rule table:
a handler with captured parameters, a 405 when some rule matches the
path but none allows the method, or a 404 when no rule matches the
path at all. -/
inductive ResolveResult where
  | resolved (handler : String) (params : List (String × String))
  | methodNotAllowed
  | pathNotFound
  deriving Repr, DecidableEq

/-- Resolve a request against the rule table: collect the rules whose
pattern matches the path, then serve the first one allowing the
method; a path match with no method match is `methodNotAllowed`, no
path match is `pathNotFound`. -/
def resolve (routes : List Route) (method : String) (path : List String) :
    ResolveResult :=
  let pathMatches := routes.filterMap
    (fun r => (matchSegs r.pattern path).map (fun ps => (r, ps)))
  match pathMatches.find? (fun rp => method ∈ rp.1.methods) with
  | some (r, ps) => .resolved r.handler ps
  | none => if pathMatches.isEmpty then .pathNotFound else .methodNotAllowed

/-- `SEARCH_ENDPOINT_METHODS` (frontend.py line 33). -/
def searchMethods : List String := ["POST", "OPTIONS"]

/-- The rule table registered by the decorators of frontend.py lines
489-701, in registration order, with each path split into segments.
Routes registered without an explicit method list take flask's default
`GET`. -/
def routeTable : List Route := [
  { pattern := [], methods := ["GET"], handler := "index" },
  { pattern := [.param "version"], methods := ["GET"], handler := "indexRedirect" },
  { pattern := [.param "version", .lit "references", .param "id"],
    methods := ["GET"], handler := "getReference" },
  { pattern := [.param "version", .lit "referencesets", .param "id"],
    methods := ["GET"], handler := "getReferenceSet" },
  { pattern := [.param "version", .lit "references", .param "id", .lit "bases"],
    methods := ["GET"], handler := "listReferenceBases" },
  { pattern := [.param "version", .lit "callsets", .lit "search"],
    methods := searchMethods, handler := "searchCallSets" },
  { pattern := [.param "version", .lit "readgroupsets", .lit "search"],
    methods := searchMethods, handler := "searchReadGroupSets" },
  { pattern := [.param "version", .lit "reads", .lit "search"],
    methods := searchMethods, handler := "searchReads" },
  { pattern := [.param "version", .lit "referencesets", .lit "search"],
    methods := searchMethods, handler := "searchReferenceSets" },
  { pattern := [.param "version", .lit "references", .lit "search"],
    methods := searchMethods, handler := "searchReferences" },
  { pattern := [.param "version", .lit "variantsets", .lit "search"],
    methods := searchMethods, handler := "searchVariantSets" },
  { pattern := [.param "version", .lit "variants", .lit "search"],
    methods := searchMethods, handler := "searchVariants" },
  { pattern := [.param "version", .lit "datasets", .lit "search"],
    methods := searchMethods, handler := "searchDatasets" },
  { pattern := [.param "version", .lit "variantsets", .exceptOf "id" ["search"]],
    methods := ["GET"], handler := "getVariantSet" },
  { pattern := [.param "version", .lit "callsets", .exceptOf "id" ["search"]],
    methods := ["GET"], handler := "getCallset" },
  { pattern := [.param "version", .lit "alleles", .exceptOf "id" ["search"]],
    methods := ["GET"], handler := "getAllele" },
  { pattern := [.param "version", .lit "variants", .exceptOf "id" ["search"]],
    methods := ["GET"], handler := "getVariant" },
  { pattern := [.param "version", .lit "variantsets", .param "vsid",
      .lit "sequences", .param "sid"],
    methods := ["GET"], handler := "getVariantSetSequence" },
  { pattern := [.param "version", .lit "feature", .param "id"],
    methods := ["GET"], handler := "getFeature" },
  { pattern := [.param "version", .lit "sequences", .param "id", .lit "bases"],
    methods := ["GET"], handler := "getSequenceBases" },
  { pattern := [.param "version", .lit "mode", .param "mode"],
    methods := ["GET"], handler := "getMode" },
  { pattern := [.param "version", .lit "datasets", .exceptOf "id" ["search"]],
    methods := ["GET"], handler := "getDataset" },
  { pattern := [.param "version", .lit "readgroupsets", .exceptOf "id" ["search"]],
    methods := ["GET"], handler := "getReadGroupSet" },
  { pattern := [.param "version", .lit "readgroups", .param "id"],
    methods := ["GET"], handler := "getReadGroup" },
  { pattern := [.param "version", .lit "genotypephenotype", .lit "search"],
    methods := searchMethods, handler := "searchGenotypePephenotype" },
  { pattern := [.param "version", .lit "individuals", .lit "search"],
    methods := searchMethods, handler := "searchIndividuals" },
  { pattern := [.param "version", .lit "samples", .lit "search"],
    methods := searchMethods, handler := "searchSamples" },
  { pattern := [.param "version", .lit "experiments", .lit "search"],
    methods := searchMethods, handler := "searchExperiments" },
  { pattern := [.param "version", .lit "individualgroups", .lit "search"],
    methods := searchMethods, handler := "searchIndividualGroups" },
  { pattern := [.param "version", .lit "analyses", .lit "search"],
    methods := searchMethods, handler := "searchAnalyses" },
  { pattern := [.param "version", .lit "sequences", .lit "search"],
    methods := searchMethods, handler := "searchSequences" },
  { pattern := [.param "version", .lit "joins", .lit "search"],
    methods := searchMethods, handler := "searchJoins" },
  { pattern := [.param "version", .lit "subgraph", .lit "segments"],
    methods := searchMethods, handler := "subgraphSegments" },
  { pattern := [.param "version", .lit "subgraph", .lit "joins"],
    methods := searchMethods, handler := "subgraphJoins" },
  { pattern := [.param "version", .lit "features", .lit "search"],
    methods := searchMethods, handler := "searchFeatures" },
  { pattern := [.param "version", .lit "variantsets", .param "id",
      .lit "sequences", .lit "search"],
    methods := searchMethods, handler := "searchVariantSetSequences" },
  { pattern := [.param "version", .lit "alleles", .lit "search"],
    methods := searchMethods, handler := "searchAlleles" },
  { pattern := [.lit "oauth2callback"], methods := ["GET"], handler := "oidcCallback" }
]

/-! ## Theorems: version gate -/

/-- A string containing a non-digit character is never equal to a
string whose characters are all digits. -/
theorem ne_of_nondigit_component (a x : String)
    (hx : x.data.all Char.isDigit = true)
    (ha : a.data.any (fun ch => !ch.isDigit) = true) : a ≠ x := by
  intro h
  subst h
  rw [List.all_eq_true] at hx
  rw [List.any_eq_true] at ha
  obtain ⟨c, hc, hcd⟩ := ha
  have := hx c hc
  simp only [Bool.not_eq_true'] at hcd
  rw [hcd] at this
  exact Bool.false_ne_true this

/-- Reduction of the `Except` monad bind on a success value. -/
@[simp] theorem except_ok_bind {α β : Type} (a : α)
    (f : α → Except ParseError β) : (Except.ok a >>= f) = f a := rfl

/-- Reduction of the `Except` monad bind on an error value. -/
@[simp] theorem except_error_bind {α β : Type} (e : ParseError)
    (f : α → Except ParseError β) :
    ((Except.error e : Except ParseError α) >>= f) = Except.error e := rfl

/-- `parseString` unfolded onto its scrutinee. -/
theorem parseString_eq (s : String) :
    parseString s = (match pySplitDot (stripV s) with
      | [major, minor, revision] => Except.ok (major, minor, revision)
      | _ => Except.error ParseError.typeError) := rfl

/-- Wrong arity always yields the typed `TypeError`. -/
theorem parseString_error_of_arity (s : String)
    (h : (pySplitDot (stripV s)).length ≠ 3) :
    parseString s = .error .typeError := by
  rw [parseString_eq]
  revert h
  rcases pySplitDot (stripV s) with _ | ⟨a, _ | ⟨b, _ | ⟨c, _ | ⟨d, tl⟩⟩⟩⟩ <;>
    intro h <;> first
      | rfl
      | simp at h

/-- A successful parse pins the arity to three components. -/
theorem parseString_ok_imp (s : String) (u : VersionTuple)
    (h : parseString s = .ok u) :
    pySplitDot (stripV s) = [u.1, u.2.1, u.2.2] := by
  rw [parseString_eq] at h
  revert h
  rcases pySplitDot (stripV s) with _ | ⟨a, _ | ⟨b, _ | ⟨c, _ | ⟨d, tl⟩⟩⟩⟩ <;>
    intro h <;> first
      | exact Except.noConfusion h
      | (injection h with h'; rw [← h'])

/-- C3 (amended): a version string of the wrong arity fails parsing
with the typed `TypeError`, and `isCurrentVersion` propagates that
failure rather than returning a Boolean; a string with a non-numeric
component but correct arity, however, parses successfully, and against
an all-numeric protocol version `isCurrentVersion` returns `false` for
it (so it never silently matches, but it does not fail either). -/
theorem version_malformed_behavior (pv x y z : String)
    (hpv : parseString pv = .ok (x, y, z))
    (hx : x.data.all Char.isDigit = true)
    (hy : y.data.all Char.isDigit = true)
    (hz : z.data.all Char.isDigit = true) :
    (∀ s, (pySplitDot (stripV s)).length ≠ 3 →
      parseString s = .error .typeError) ∧
    (∀ s, s ≠ currentString → parseString s = .error .typeError →
      isCurrentVersion pv s = .error .typeError) ∧
    (∀ s a b c, parseString s = .ok (a, b, c) →
      (a.data.any (fun ch => !ch.isDigit) ||
       b.data.any (fun ch => !ch.isDigit) ||
       c.data.any (fun ch => !ch.isDigit)) = true →
      isCurrentVersion pv s = .ok false) := by
  refine ⟨parseString_error_of_arity, ?_, ?_⟩
  · intro s hs herr
    simp [isCurrentVersion, hs, herr]
  · intro s a b c hps hbad
    have hs : s ≠ currentString := by
      intro h
      subst h
      rw [show parseString currentString = .error .typeError from rfl] at hps
      exact Except.noConfusion hps
    have hne : (a, b, c) ≠ (x, y, z) := by
      intro h
      injection h with h1 h23
      injection h23 with h2 h3
      rcases Bool.or_eq_true_iff.mp hbad with h' | h3'
      · rcases Bool.or_eq_true_iff.mp h' with h1' | h2'
        · exact ne_of_nondigit_component a x hx h1' h1
        · exact ne_of_nondigit_component b y hy h2' h2
      · exact ne_of_nondigit_component c z hz h3' h3
    simp [isCurrentVersion, hs, hps, hpv, hne]

/-- C3 counterexample: a version string whose components are all
non-numeric but whose arity is correct parses successfully — no typed
error is raised, contradicting the claim that any non-numeric
component fails parsing. -/
theorem parse_nonnumeric_succeeds :
    parseString "a.b.c" = .ok ("a", "b", "c") := rfl

/-- C5: `isCurrentVersion` answers `true` exactly for strings that
parse to the same component tuple as the configured protocol version,
`false` for any string whose parse differs in some component, and the
sentinel `"current"` short-circuits to `true` for every protocol
version — even an unparseable one — showing it never undergoes numeric
parsing. -/
theorem isCurrentVersion_correct (pv : String) (t : VersionTuple)
    (hpv : parseString pv = .ok t) :
    (∀ q : String, isCurrentVersion q currentString = .ok true) ∧
    (∀ s u, parseString s = .ok u →
      isCurrentVersion pv s = .ok (decide (u = t))) := by
  constructor
  · intro q
    simp [isCurrentVersion]
  · intro s u hu
    have hs : s ≠ currentString := by
      intro h
      subst h
      rw [show parseString currentString = .error .typeError from rfl] at hu
      exact Except.noConfusion hu
    simp [isCurrentVersion, hs, hu, hpv]

/-- Witness for C5 at concrete inputs: protocol version `"0.5.1"`,
sentinel always true, and a string differing in one component is
rejected. -/
theorem isCurrentVersion_correct_witness :
    isCurrentVersion "0.5.1" currentString = .ok true ∧
    isCurrentVersion "0.5.1" "0.6.1" = .ok false := by
  have h := isCurrentVersion_correct "0.5.1" ("0", "5", "1") rfl
  refine ⟨h.1 "0.5.1", ?_⟩
  have h2 := h.2 "0.6.1" ("0", "6", "1") rfl
  simpa using h2

/-- Witness for C3 at concrete inputs: `"0.5"` has the wrong arity and
fails both parsing and `isCurrentVersion` with the typed error, while
`"a.b.c"` parses and compares unequal to the protocol version. -/
theorem version_malformed_behavior_witness :
    parseString "0.5" = .error .typeError ∧
    isCurrentVersion "0.5.1" "0.5" = .error .typeError ∧
    isCurrentVersion "0.5.1" "a.b.c" = .ok false := by
  have h := version_malformed_behavior "0.5.1" "0" "5" "1" rfl
    (by decide) (by decide) (by decide)
  refine ⟨h.1 "0.5" (by decide), h.2.1 "0.5" (by decide) (h.1 "0.5" (by decide)), ?_⟩
  exact h.2.2 "a.b.c" "a" "b" "c" rfl (by decide)

/-- C8 counterexample: even in the one case where the claim promises
an HTTP redirect to `/` — a version string matching the current
protocol version — the `/<version>` route does not redirect: line 501
executes `return index()`, so the response is the rendered index page
body (the same outcome `GET /` produces), not a redirect response. -/
theorem indexRedirect_no_redirect :
    indexRedirect "0.5.1" "0.5.1" ≠ .redirect "/" ∧
    indexRedirect "0.5.1" "0.5.1" = index := by decide

/-- C8 (amended): `GET /<version>` serves the index page — the same
response as `GET /`, not an HTTP redirect to it — exactly when the
version string parses equal to the configured protocol version or is
the sentinel; a parseable non-matching version and a malformed version
both fail with `PathNotFound`; no input whatsoever produces a redirect
response. -/
theorem indexRedirect_behavior (pv s : String) (t : VersionTuple)
    (hpv : parseString pv = .ok t) :
    indexRedirect pv currentString = index ∧
    (∀ u, parseString s = .ok u →
      indexRedirect pv s =
        if u = t then index else .pathNotFound) ∧
    (parseString s = .error .typeError → s ≠ currentString →
      indexRedirect pv s = .pathNotFound) ∧
    (∀ target, indexRedirect pv s ≠ .redirect target) := by
  refine ⟨?_, ?_, ?_, ?_⟩
  · simp [indexRedirect, isCurrentVersion]
  · intro u hu
    have hs : s ≠ currentString := by
      intro h
      subst h
      rw [show parseString currentString = .error .typeError from rfl] at hu
      exact Except.noConfusion hu
    by_cases he : u = t <;>
      simp [indexRedirect, isCurrentVersion, hs, hu, hpv, he]
  · intro herr hs
    simp [indexRedirect, isCurrentVersion, hs, herr]
  · intro target
    unfold indexRedirect
    rcases e : isCurrentVersion pv s with ⟨⟨⟩⟩ | b
    · simp
    · cases b <;> simp [index]

/-- Witness for C8 at concrete inputs: protocol version `"0.5.1"`; a
matching string (with the `v` marker) serves the index page, a
mismatching and a malformed string fail with `PathNotFound`, and the
mismatching one is in particular no redirect. -/
theorem indexRedirect_behavior_witness :
    indexRedirect "0.5.1" "v0.5.1" = index ∧
    indexRedirect "0.5.1" "9.9.9" = .pathNotFound ∧
    indexRedirect "0.5.1" "nosuchversion" = .pathNotFound ∧
    indexRedirect "0.5.1" "9.9.9" ≠ .redirect "/" := by
  have h1 := indexRedirect_behavior "0.5.1" "v0.5.1" ("0", "5", "1") rfl
  have h2 := indexRedirect_behavior "0.5.1" "9.9.9" ("0", "5", "1") rfl
  have h3 := indexRedirect_behavior "0.5.1" "nosuchversion" ("0", "5", "1") rfl
  refine ⟨?_, ?_, h3.2.2.1 rfl (by decide), h2.2.2.2 "/"⟩
  · have := h1.2.1 ("0", "5", "1") rfl
    simpa using this
  · have := h2.2.1 ("9", "9", "9") rfl
    simpa using this

/-! ## Theorems: auth gate -/

/-- C1 (code bug): a caller whose identity is known to the permission
table but whose requested datasets intersect their permitted set in
nothing is NOT rejected: the computed permitted subset is empty, yet
the gate passes the request through, because `validIds is []` at
frontend.py line 411 is an object-identity test that is always false.
The claim (and the function's own docstring, which promises to raise
when the user lacks access) says the gate must fail with
`NotAuthenticated` before the backend is invoked. -/
theorem emptyIntersection_not_rejected :
    assocFind [("alice", ["ds1"])] "alice" = some ["ds1"] ∧
    ["ds2"].filter (fun dataset => dataset ∈ ["ds1"]) = [] ∧
    (checkAuthentication true
      ⟨[("tok", ⟨"c", "s", ⟨true, some "n"⟩, "alice", "ui"⟩)],
       [("alice", ["ds1"])]⟩
      ⟨some "tok", none, none, none⟩
      ⟨none, some ["ds2"], false⟩ "r1" "r2").1 = .pass := by
  refine ⟨rfl, by decide, rfl⟩

/-- C2 counterexample: a caller permitted exactly `["ds1"]` who
requests `["ds1", "ds2"]` passes the gate with the request body
unchanged, so the backend search receives both dataset ids — the
requested set is not narrowed to the permitted subset (`validIds` is
computed at frontend.py lines 409-410 and then discarded). -/
theorem permittedSubset_not_dropped :
    assocFind [("alice", ["ds1"])] "alice" = some ["ds1"] ∧
    gatedSearchDatasets true
      ⟨[("tok", ⟨"c", "s", ⟨true, some "n"⟩, "alice", "ui"⟩)],
       [("alice", ["ds1"])]⟩
      ⟨some "tok", none, none, none⟩
      ⟨none, some ["ds1", "ds2"], false⟩ "r1" "r2" = some ["ds1", "ds2"] ∧
    (some ["ds1", "ds2"] : Option (List String)) ≠ some ["ds1"] := by
  refine ⟨rfl, rfl, by decide⟩

/-- C2 (amended): whenever the gate passes a request, the dataset
identifiers that reach the backend search are exactly the requested
ones, unchanged — nothing is dropped and nothing is expanded. -/
theorem gate_passes_body_unchanged (oidcConfigured : Bool)
    (srv : ServerState) (sess : SessionData) (req : Request)
    (r1 r2 : String)
    (h : (checkAuthentication oidcConfigured srv sess req r1 r2).1 = .pass) :
    gatedSearchDatasets oidcConfigured srv sess req r1 r2 =
      req.jsonDatasetIds := by
  simp [gatedSearchDatasets, h]

/-- Witness for the amended C2 at the counterexample input: the caller
permitted `["ds1"]` requesting `["ds1", "ds2"]` sees the full
requested list go downstream. -/
theorem gate_passes_body_unchanged_witness :
    gatedSearchDatasets true
      ⟨[("tok", ⟨"c", "s", ⟨true, some "n"⟩, "bob", "ui"⟩)],
       [("bob", ["ds1"])]⟩
      ⟨some "tok", none, none, none⟩
      ⟨none, some ["ds1", "ds2"], false⟩ "r1" "r2" = some ["ds1", "ds2"] := by
  exact gate_passes_body_unchanged true
    ⟨[("tok", ⟨"c", "s", ⟨true, some "n"⟩, "bob", "ui"⟩)], [("bob", ["ds1"])]⟩
    ⟨some "tok", none, none, none⟩
    ⟨none, some ["ds1", "ds2"], false⟩ "r1" "r2" rfl

/-- C7: with OIDC configured, on a non-callback request whose resolved
key has no token-map entry, a caller with an explicit `key` query
parameter is rejected with `NotAuthenticated` (never redirected),
while a caller without one receives the login redirect. -/
theorem unauthenticated_gate (srv : ServerState) (sess : SessionData)
    (req : Request) (r1 r2 : String)
    (hcb : req.endpointIsOidcCallback = false)
    (hno : lookupKey srv.tokenMap (pyOr sess.key req.argsKey) = none) :
    (req.argsKey.isSome = true →
      (checkAuthentication true srv sess req r1 r2).1 =
        .notAuthenticated none) ∧
    (req.argsKey = none →
      (checkAuthentication true srv sess req r1 r2).1 = .loginRedirect) := by
  constructor
  · intro hk
    simp [checkAuthentication, hcb, hno, hk]
  · intro hk
    rw [hk] at hno
    simp [checkAuthentication, hcb, hno, hk, startLogin]

/-- Witness for C7 at concrete inputs: an empty token map rejects the
programmatic caller and redirects the interactive caller. -/
theorem unauthenticated_gate_witness :
    (checkAuthentication true ⟨[], []⟩ ⟨none, none, none, none⟩
      ⟨some "badkey", none, false⟩ "r1" "r2").1 = .notAuthenticated none ∧
    (checkAuthentication true ⟨[], []⟩ ⟨none, none, none, none⟩
      ⟨none, none, false⟩ "r1" "r2").1 = .loginRedirect := by
  constructor
  · exact (unauthenticated_gate ⟨[], []⟩ ⟨none, none, none, none⟩
      ⟨some "badkey", none, false⟩ "r1" "r2" rfl rfl).1 rfl
  · exact (unauthenticated_gate ⟨[], []⟩ ⟨none, none, none, none⟩
      ⟨none, none, false⟩ "r1" "r2" rfl rfl).2 rfl

/-- C9 counterexample: a session whose stored key is the empty string
resolves in the token map, yet the gate rejects the request when an
invalid `key` query parameter is present: Python's `or` treats the
empty-string session key as falsy (frontend.py line 396), so the query
parameter is consulted instead of the session token. -/
theorem emptySessionKey_overridden :
    assocFind [("", (⟨"c", "s", ⟨true, some "n"⟩, "alice", "ui"⟩ : TokenRecord))] "" =
      some ⟨"c", "s", ⟨true, some "n"⟩, "alice", "ui"⟩ ∧
    (checkAuthentication true
      ⟨[("", ⟨"c", "s", ⟨true, some "n"⟩, "alice", "ui"⟩)], []⟩
      ⟨some "", none, none, none⟩
      ⟨some "zzz", none, false⟩ "r1" "r2").1 = .notAuthenticated none := by
  refine ⟨rfl, rfl⟩

/-- C9 (amended): when the session holds a non-empty key with a
token-map entry, the gate's outcome is computed from that session key
alone: it equals the dataset-stage outcome for the resolved record, it
is identical for every value (or absence) of the `key` query
parameter, it is never a login redirect, and it is never the
missing-token rejection (`NotAuthenticated` without a user id). -/
theorem sessionKey_precedence (srv : ServerState) (sess : SessionData)
    (req : Request) (r1 r2 k : String) (record : TokenRecord)
    (hcb : req.endpointIsOidcCallback = false)
    (hk : sess.key = some k) (hne : k ≠ "")
    (hmap : assocFind srv.tokenMap k = some record) :
    (checkAuthentication true srv sess req r1 r2).1 =
      datasetCheck srv record req.jsonDatasetIds ∧
    (∀ args, (checkAuthentication true srv sess
        { req with argsKey := args } r1 r2).1 =
      (checkAuthentication true srv sess req r1 r2).1) ∧
    (checkAuthentication true srv sess req r1 r2).1 ≠ .loginRedirect ∧
    (checkAuthentication true srv sess req r1 r2).1 ≠
      .notAuthenticated none := by
  have hpy : ∀ b, pyOr sess.key b = some k := by
    intro b
    simp [pyOr, hk, hne]
  have hmain : (checkAuthentication true srv sess req r1 r2).1 =
      datasetCheck srv record req.jsonDatasetIds := by
    simp [checkAuthentication, hcb, hpy, lookupKey, hmap]
  have hds : ∀ ids, datasetCheck srv record ids ≠ .loginRedirect ∧
      datasetCheck srv record ids ≠ .notAuthenticated none := by
    intro ids
    unfold datasetCheck
    rcases ids with _ | ids
    · exact ⟨by simp, by simp⟩
    rcases assocFind srv.permissions record.userId with _ | ds
    · exact ⟨by simp, by simp⟩
    · simp [pyIsEmptyListLiteral]
  refine ⟨hmain, ?_, hmain ▸ (hds req.jsonDatasetIds).1,
    hmain ▸ (hds req.jsonDatasetIds).2⟩
  intro args
  rw [hmain]
  simp [checkAuthentication, hcb, hpy, lookupKey, hmap]

/-- Witness for the amended C9 at concrete inputs: a non-empty session
key with a token-map entry yields the same pass outcome whether the
query parameter carries an invalid key or is absent. -/
theorem sessionKey_precedence_witness :
    (checkAuthentication true
      ⟨[("tok", ⟨"c", "s", ⟨true, some "n"⟩, "carol", "ui"⟩)], []⟩
      ⟨some "tok", none, none, none⟩
      ⟨some "invalid", none, false⟩ "r1" "r2").1 = .pass := by
  have h := sessionKey_precedence
    ⟨[("tok", ⟨"c", "s", ⟨true, some "n"⟩, "carol", "ui"⟩)], []⟩
    ⟨some "tok", none, none, none⟩
    ⟨some "invalid", none, false⟩ "r1" "r2" "tok"
    ⟨"c", "s", ⟨true, some "n"⟩, "carol", "ui"⟩ rfl rfl (by decide) rfl
  rw [h.1]
  rfl

/-! ## Theorems: OIDC callback -/

/-- C4 (code bug): a callback whose query parameters do not parse as a
valid authorization response and carry no `state` entry does not fail
with `NotAuthenticated`: the subscript `aresp['state']` at frontend.py
line 724 runs before the `isinstance` test at lines 725-726, raises a
`KeyError`, and the error normalizer converts that into a generic
server error.  A mismatched state on a well-formed response, by
contrast, does fail with `NotAuthenticated` as claimed. -/
theorem callback_parse_failure_uncaught :
    (oidcCallback true ⟨[], []⟩ ⟨none, none, some "st", some "nn"⟩
      ⟨⟨false, none, none⟩, ⟨true, some "nn"⟩, ⟨some "u", "p"⟩, "fk"⟩).1 =
      .uncaughtError ∧
    CallbackOutcome.uncaughtError ≠ CallbackOutcome.notAuthenticated ∧
    (oidcCallback true ⟨[], []⟩ ⟨none, none, some "other", some "nn"⟩
      ⟨⟨true, some "st", some "cd"⟩, ⟨true, some "nn"⟩, ⟨some "u", "p"⟩,
        "fk"⟩).1 = .notAuthenticated := by
  refine ⟨rfl, by decide, rfl⟩

/-- Case analysis of `oidcCallback`: either it redirects to the index
and the only server-state change is the dict insertion of the freshly
minted record under the fresh key, or it fails and leaves the server
state untouched. -/
theorem oidcCallback_state_cases (oidcConfigured : Bool)
    (srv : ServerState) (sess : SessionData) (inp : CallbackInput) :
    ((oidcCallback oidcConfigured srv sess inp).1 = .redirectToIndex ∧
      ∃ record, (oidcCallback oidcConfigured srv sess inp).2.1 =
        { srv with
            tokenMap := dictInsert srv.tokenMap inp.freshKey record }) ∨
    ((oidcCallback oidcConfigured srv sess inp).1 ≠ .redirectToIndex ∧
      (oidcCallback oidcConfigured srv sess inp).2.1 = srv) := by
  obtain ⟨⟨isAR, stOpt, cdOpt⟩, ⟨isATR, nonceOpt⟩, ⟨emailOpt, payload⟩, fk⟩ := inp
  rcases oidcConfigured with _ | _
  · exact Or.inr ⟨by simp [oidcCallback], by simp [oidcCallback]⟩
  rcases stOpt with _ | respState
  · exact Or.inr ⟨by simp [oidcCallback], by simp [oidcCallback]⟩
  rcases isAR with _ | _
  · exact Or.inr ⟨by simp [oidcCallback], by simp [oidcCallback]⟩
  by_cases hst : sess.state = some respState
  case neg =>
    exact Or.inr ⟨by simp [oidcCallback, hst], by simp [oidcCallback, hst]⟩
  rcases cdOpt with _ | code
  · exact Or.inr ⟨by simp [oidcCallback, hst], by simp [oidcCallback, hst]⟩
  rcases isATR with _ | _
  · exact Or.inr ⟨by simp [oidcCallback, hst], by simp [oidcCallback, hst]⟩
  rcases nonceOpt with _ | nonce
  · exact Or.inr ⟨by simp [oidcCallback, hst], by simp [oidcCallback, hst]⟩
  by_cases hn : sess.nonce = some nonce
  case neg =>
    exact Or.inr
      ⟨by simp [oidcCallback, hst, hn], by simp [oidcCallback, hst, hn]⟩
  rcases emailOpt with _ | userId
  · exact Or.inr
      ⟨by simp [oidcCallback, hst, hn], by simp [oidcCallback, hst, hn]⟩
  · refine Or.inl ⟨by simp [oidcCallback, hst, hn],
      ⟨⟨code, respState, ⟨true, some nonce⟩, userId, payload⟩,
        by simp [oidcCallback, hst, hn]⟩⟩

/-- Appending a fresh binding does not change other keys' lookups. -/
theorem assocFind_append_of_ne {α : Type} (m : List (String × α))
    (k k' : String) (v : α) (h : k ≠ k') :
    assocFind (m ++ [(k, v)]) k' = assocFind m k' := by
  induction m with
  | nil => simp [assocFind, h]
  | cons p rest ih =>
    rcases p with ⟨k0, v0⟩
    by_cases he : k0 = k'
    · simp [assocFind, he]
    · simp [assocFind, he, ih]

/-- Looking up the freshly appended key finds the new value. -/
theorem assocFind_append_self {α : Type} (m : List (String × α))
    (k : String) (v : α) (h : assocFind m k = none) :
    assocFind (m ++ [(k, v)]) k = some v := by
  induction m with
  | nil => simp [assocFind]
  | cons p rest ih =>
    rcases p with ⟨k0, v0⟩
    by_cases he : k0 = k
    · rw [assocFind] at h
      simp [he] at h
    · rw [assocFind] at h
      simp only [he, if_false] at h
      simp [assocFind, he, ih h]

/-- Under a fresh key, dict insertion is an append. -/
theorem dictInsert_fresh {α : Type} (m : List (String × α)) (k : String)
    (v : α) (h : assocFind m k = none) :
    dictInsert m k v = m ++ [(k, v)] := by
  unfold dictInsert
  rw [h]

/-- C10: the per-request auth gate leaves the token map and the
permission table exactly as it found them on every path (pass, reject
or redirect); the OIDC callback leaves the permission table alone and,
when the minted key is fresh, either fails leaving the server state
untouched or succeeds adding exactly one new token-map entry under the
fresh key while every other key's lookup is preserved. -/
theorem sharedState_frame (o1 o2 : Bool) (srv srv2 : ServerState)
    (sess sess2 : SessionData) (req : Request) (r1 r2 : String)
    (inp : CallbackInput)
    (hfresh : assocFind srv2.tokenMap inp.freshKey = none) :
    (checkAuthentication o1 srv sess req r1 r2).2.1 = srv ∧
    (oidcCallback o2 srv2 sess2 inp).2.1.permissions = srv2.permissions ∧
    (∀ k, k ≠ inp.freshKey →
      assocFind (oidcCallback o2 srv2 sess2 inp).2.1.tokenMap k =
        assocFind srv2.tokenMap k) ∧
    ((oidcCallback o2 srv2 sess2 inp).1 ≠ .redirectToIndex →
      (oidcCallback o2 srv2 sess2 inp).2.1 = srv2) ∧
    ((oidcCallback o2 srv2 sess2 inp).1 = .redirectToIndex →
      (oidcCallback o2 srv2 sess2 inp).2.1.tokenMap.length =
        srv2.tokenMap.length + 1 ∧
      ((assocFind (oidcCallback o2 srv2 sess2 inp).2.1.tokenMap
        inp.freshKey).isSome = true)) := by
  have hgate : (checkAuthentication o1 srv sess req r1 r2).2.1 = srv := by
    unfold checkAuthentication
    rcases o1 with _ | _
    · rfl
    by_cases hcb : req.endpointIsOidcCallback
    · simp [hcb]
    simp only [hcb, if_false]
    rcases lookupKey srv.tokenMap (pyOr sess.key req.argsKey) with _ | record
    · by_cases hk : req.argsKey.isSome <;> simp [hk, startLogin]
    · simp
  rcases oidcCallback_state_cases o2 srv2 sess2 inp with
    ⟨hout, record, hsrv⟩ | ⟨hout, hsrv⟩
  · rw [dictInsert_fresh srv2.tokenMap inp.freshKey record hfresh] at hsrv
    refine ⟨hgate, by rw [hsrv], ?_, fun hn => absurd hout hn, fun _ => ?_⟩
    · intro k hk
      rw [hsrv]
      exact assocFind_append_of_ne srv2.tokenMap inp.freshKey k record
        (fun he => hk he.symm)
    · rw [hsrv]
      constructor
      · simp
      · rw [assocFind_append_self srv2.tokenMap inp.freshKey record hfresh]
        rfl
  · refine ⟨hgate, by rw [hsrv], ?_, fun _ => hsrv, fun hr => absurd hr hout⟩
    intro k _
    rw [hsrv]

/-- Witness for C10 at concrete inputs: a pass through the gate keeps
the server state, and a successful callback grows the empty token map
to exactly one entry under the fresh key. -/
theorem sharedState_frame_witness :
    (checkAuthentication true ⟨[], []⟩ ⟨none, none, none, none⟩
      ⟨none, none, false⟩ "r1" "r2").2.1 = (⟨[], []⟩ : ServerState) ∧
    (oidcCallback true ⟨[], []⟩ ⟨none, none, some "st", some "nn"⟩
      ⟨⟨true, some "st", some "cd"⟩, ⟨true, some "nn"⟩, ⟨some "u", "p"⟩,
        "fk"⟩).2.1.tokenMap.length = 1 := by
  have h := sharedState_frame true true ⟨[], []⟩ ⟨[], []⟩
    ⟨none, none, none, none⟩ ⟨none, none, some "st", some "nn"⟩
    ⟨none, none, false⟩ "r1" "r2"
    ⟨⟨true, some "st", some "cd"⟩, ⟨true, some "nn"⟩, ⟨some "u", "p"⟩, "fk"⟩
    rfl
  exact ⟨h.1, (h.2.2.2.2 rfl).1⟩

/-! ## Theorems: route resolution -/

/-- Segment matching on an exhausted pattern with remaining path. -/
@[simp] theorem matchSegs_nil_cons (t : String) (ts : List String) :
    matchSegs [] (t :: ts) = none := rfl

/-- Segment matching on an empty path with remaining pattern. -/
@[simp] theorem matchSegs_cons_nil (sg : Seg) (rest : List Seg) :
    matchSegs (sg :: rest) [] = none := by
  cases sg <;> rfl

/-- Segment matching when both lists are exhausted. -/
@[simp] theorem matchSegs_nil_nil : matchSegs [] [] = some [] := rfl

/-- Segment matching on a literal segment. -/
@[simp] theorem matchSegs_lit (s : String) (rest : List Seg) (t : String)
    (ts : List String) :
    matchSegs (.lit s :: rest) (t :: ts) =
      if s = t then matchSegs rest ts else none := rfl

/-- Segment matching on a plain placeholder. -/
@[simp] theorem matchSegs_param (n : String) (rest : List Seg) (t : String)
    (ts : List String) :
    matchSegs (.param n :: rest) (t :: ts) =
      (matchSegs rest ts).map (fun ps => (n, t) :: ps) := rfl

/-- Segment matching on an exclusion placeholder. -/
@[simp] theorem matchSegs_exceptOf (n : String) (excluded : List String)
    (rest : List Seg) (t : String) (ts : List String) :
    matchSegs (.exceptOf n excluded :: rest) (t :: ts) =
      if t ∈ excluded then none
      else (matchSegs rest ts).map (fun ps => (n, t) :: ps) := rfl

/-- C6: the exclusion converter keeps the reserved literal out of the
id placeholder: `GET /v1/variantsets/search` is not resolved to the
get-by-id handler (the search rule matches the path but not the
method, so the result is method-not-allowed), while a GET for any
non-`search` id under `/·/variantsets/` resolves to `getVariantSet`
with that id captured. -/
theorem variantsets_routing (v x : String) (hx : x ≠ "search") :
    resolve routeTable "GET" ["v1", "variantsets", "search"] =
      .methodNotAllowed ∧
    resolve routeTable "GET" [v, "variantsets", x] =
      .resolved "getVariantSet" [("version", v), ("id", x)] := by
  constructor
  · decide
  · have hx' : ("search" = x) = False := by
      simp [eq_comm, hx]
    simp [resolve, routeTable, searchMethods, hx, hx', List.filterMap,
      List.find?]

/-- Witness for C6 at the concrete path of the claim:
`GET /v1/variantsets/abc123` resolves to the get-by-id handler with
`id = "abc123"`. -/
theorem variantsets_routing_witness :
    resolve routeTable "GET" ["v1", "variantsets", "abc123"] =
      .resolved "getVariantSet" [("version", "v1"), ("id", "abc123")] :=
  (variantsets_routing "v1" "abc123" (by decide)).2

end Frontend
